import Mathlib

/-
Verification development for the Golf Gamez backend (Go).

Each Lean definition is a shallow embedding of a function of the Go source,
keeping the source's control flow and literals.  Go strings are embedded as
lists of characters (type GoStr below) so that byte-level operations such as
slicing and checking a literal at the start of a string can be reasoned about
directly; Go ints are embedded as Lean Int (the validated ranges make 64-bit
overflow unreachable); Go float64 fields that are only compared against
constants (player handicaps) are embedded as rationals; SQL tables are
embedded as lists of row records and single-row SELECTs as List.find?.
-/

/-- Embedding of a Go string as its list of characters. -/
abbrev GoStr := List Char

/-- Embedding of the Go ErrorCode string type (pkg/errors/errors.go). -/
abbrev ErrorCode := String

-- Error codes of pkg/errors/errors.go.

def errValidation : ErrorCode := "validation_error"

def errInvalidHandicap : ErrorCode := "invalid_handicap"

def errInvalidHoleNumber : ErrorCode := "invalid_hole_number"

def errInvalidScoreValues : ErrorCode := "invalid_score_values"

def errMissingRequiredField : ErrorCode := "missing_required_field"

def errGameNotStarted : ErrorCode := "game_not_started"

def errGameAlreadyCompleted : ErrorCode := "game_already_completed"

def errPlayerLimitExceeded : ErrorCode := "player_limit_exceeded"

def errDuplicatePlayerName : ErrorCode := "duplicate_player_name"

def errScoreAlreadyExists : ErrorCode := "score_already_exists"

def errFutureHole : ErrorCode := "future_hole"

def errInvalidGameState : ErrorCode := "invalid_game_state"

def errResourceNotFound : ErrorCode := "resource_not_found"

def errGameNotFound : ErrorCode := "game_not_found"

def errPlayerNotFound : ErrorCode := "player_not_found"

def errScoreNotFound : ErrorCode := "score_not_found"

def errSideBetNotEnabled : ErrorCode := "side_bet_not_enabled"

def errInsufficientHoles : ErrorCode := "insufficient_holes"

def errCardsAlreadyDealt : ErrorCode := "cards_already_dealt"

def errInvalidPuttCount : ErrorCode := "invalid_putt_count"

def errGameNotCompleted : ErrorCode := "game_not_completed"

def errInvalidToken : ErrorCode := "invalid_token"

def errExpiredToken : ErrorCode := "expired_token"

def errInsufficientPermissions : ErrorCode := "insufficient_permissions"

def errRateLimitExceeded : ErrorCode := "rate_limit_exceeded"

def errInternalServer : ErrorCode := "internal_server_error"

def errServiceUnavailable : ErrorCode := "service_unavailable"

/-- Embedding of APIError.GetHTTPStatus (pkg/errors/errors.go, lines 129-154).
The Go switch statement's case groups become a chain of conditionals, in
source order; the final branch is the switch's default. -/
def GetHTTPStatus (code : ErrorCode) : Nat :=
  if code = errValidation ∨ code = errInvalidHandicap ∨ code = errInvalidHoleNumber ∨
      code = errInvalidScoreValues ∨ code = errMissingRequiredField then 400
  else if code = errGameNotStarted ∨ code = errGameAlreadyCompleted ∨ code = errFutureHole ∨
      code = errInvalidGameState then 400
  else if code = errSideBetNotEnabled ∨ code = errInsufficientHoles ∨ code = errCardsAlreadyDealt ∨
      code = errInvalidPuttCount ∨ code = errGameNotCompleted then 400
  else if code = errPlayerLimitExceeded ∨ code = errDuplicatePlayerName ∨
      code = errScoreAlreadyExists then 409
  else if code = errResourceNotFound ∨ code = errGameNotFound ∨ code = errPlayerNotFound ∨
      code = errScoreNotFound then 404
  else if code = errInvalidToken ∨ code = errExpiredToken then 401
  else if code = errInsufficientPermissions then 403
  else if code = errRateLimitExceeded then 429
  else if code = errServiceUnavailable then 503
  else if code = errInternalServer then 500
  else 500

/-- The error codes mapped to a status other than 500 by GetHTTPStatus. -/
def non500Codes : List ErrorCode :=
  [errValidation, errInvalidHandicap, errInvalidHoleNumber, errInvalidScoreValues,
   errMissingRequiredField,
   errGameNotStarted, errGameAlreadyCompleted, errFutureHole, errInvalidGameState,
   errSideBetNotEnabled, errInsufficientHoles, errCardsAlreadyDealt, errInvalidPuttCount,
   errGameNotCompleted,
   errPlayerLimitExceeded, errDuplicatePlayerName, errScoreAlreadyExists,
   errResourceNotFound, errGameNotFound, errPlayerNotFound, errScoreNotFound,
   errInvalidToken, errExpiredToken,
   errInsufficientPermissions,
   errRateLimitExceeded,
   errServiceUnavailable]

/-- Claim C5: the error-code-to-HTTP-status mapping is total and matches the
spec's table for every error code: validation, business-state and side-bet
codes map to 400; player_limit_exceeded, duplicate_player_name and
score_already_exists map to 409; the resource-not-found codes map to 404;
invalid_token and expired_token map to 401; insufficient_permissions maps
to 403; rate_limit_exceeded maps to 429; service_unavailable maps to 503;
and every other code, including unrecognized ones, maps to 500. -/
theorem getHTTPStatus_spec :
    (GetHTTPStatus errValidation = 400 ∧ GetHTTPStatus errInvalidHandicap = 400 ∧
     GetHTTPStatus errInvalidHoleNumber = 400 ∧ GetHTTPStatus errInvalidScoreValues = 400 ∧
     GetHTTPStatus errMissingRequiredField = 400 ∧
     GetHTTPStatus errGameNotStarted = 400 ∧ GetHTTPStatus errGameAlreadyCompleted = 400 ∧
     GetHTTPStatus errFutureHole = 400 ∧ GetHTTPStatus errInvalidGameState = 400 ∧
     GetHTTPStatus errSideBetNotEnabled = 400 ∧ GetHTTPStatus errInsufficientHoles = 400 ∧
     GetHTTPStatus errCardsAlreadyDealt = 400 ∧ GetHTTPStatus errInvalidPuttCount = 400 ∧
     GetHTTPStatus errGameNotCompleted = 400 ∧
     GetHTTPStatus errPlayerLimitExceeded = 409 ∧ GetHTTPStatus errDuplicatePlayerName = 409 ∧
     GetHTTPStatus errScoreAlreadyExists = 409 ∧
     GetHTTPStatus errResourceNotFound = 404 ∧ GetHTTPStatus errGameNotFound = 404 ∧
     GetHTTPStatus errPlayerNotFound = 404 ∧ GetHTTPStatus errScoreNotFound = 404 ∧
     GetHTTPStatus errInvalidToken = 401 ∧ GetHTTPStatus errExpiredToken = 401 ∧
     GetHTTPStatus errInsufficientPermissions = 403 ∧
     GetHTTPStatus errRateLimitExceeded = 429 ∧
     GetHTTPStatus errServiceUnavailable = 503 ∧
     GetHTTPStatus errInternalServer = 500) ∧
    (∀ code : ErrorCode, code ∉ non500Codes → GetHTTPStatus code = 500) := by
  refine ⟨by decide, ?_⟩
  intro code hc
  simp only [non500Codes, List.mem_cons, List.not_mem_nil, or_false, not_or] at hc
  obtain ⟨ha, hb, hcc, hd, he, hf, hg, hh, hi, hj, hk, hl, hm, hn, ho, hp, hq,
    hr, hs, ht, hu, hv, hw, hx, hy, hz⟩ := hc
  simp only [GetHTTPStatus, ha, hb, hcc, hd, he, hf, hg, hh, hi, hj, hk, hl, hm, hn,
    ho, hp, hq, hr, hs, ht, hu, hv, hw, hx, hy, hz, or_self, if_false,
    false_or]
  split <;> rfl

/-- Witness instantiating the universally quantified default branch of
getHTTPStatus_spec at a concrete unrecognized code. -/
theorem getHTTPStatus_spec_witness : GetHTTPStatus "totally_unknown_code" = 500 :=
  getHTTPStatus_spec.2 "totally_unknown_code" (by decide)

-- Token generation and format validation (pkg/auth/tokens.go).

/-- ShareTokenPrefix constant of pkg/auth/tokens.go (renamed shareTokenPfx here). -/
def shareTokenPfx : GoStr := "gt_".data

/-- SpectatorTokenPrefix constant of pkg/auth/tokens.go (renamed spectatorTokenPfx here). -/
def spectatorTokenPfx : GoStr := "st_".data

/-- TokenLength constant of pkg/auth/tokens.go: token body length excluding the two
three-character prefixes. -/
def tokenLength : Nat := 20

/-- Embedding of auth.TokenType (pkg/auth/tokens.go). -/
inductive TokenType where
  | share
  | spectator
deriving DecidableEq, Repr

/-- The lowercase hexadecimal digit for n below 16, as hex.EncodeToString
produces it: digits then the letters starting at a. -/
def hexDigit (n : Nat) : Char :=
  if n < 10 then Char.ofNat (48 + n) else Char.ofNat (87 + n)

/-- One byte becomes two lowercase hex characters (hex.EncodeToString). -/
def hexEncodeByte (b : Nat) : List Char := [hexDigit (b / 16), hexDigit (b % 16)]

/-- Embedding of hex.EncodeToString over a byte list. -/
def hexEncode : List Nat → GoStr
  | [] => []
  | b :: bs => hexEncodeByte b ++ hexEncode bs

/-- Embedding of generateToken (pkg/auth/tokens.go, lines 52-62): the random
bytes read from crypto/rand are passed in explicitly; the Go code reads
TokenLength/2 = 10 of them. -/
def generateToken (pfx : GoStr) (randomBytes : List Nat) : GoStr :=
  pfx ++ hexEncode randomBytes

/-- Embedding of auth.TokenPair. -/
structure TokenPair where
  shareToken : GoStr
  spectatorToken : GoStr
deriving DecidableEq, Repr

/-- Embedding of GenerateTokenPair (pkg/auth/tokens.go, lines 34-49); r1 and r2
are the two 10-byte random draws. -/
def GenerateTokenPair (r1 r2 : List Nat) : TokenPair :=
  { shareToken := generateToken shareTokenPfx r1
    spectatorToken := generateToken spectatorTokenPfx r2 }

/-- Embedding of ValidateTokenFormat (pkg/auth/tokens.go, lines 65-81). -/
def ValidateTokenFormat (token : GoStr) : Except String TokenType :=
  if shareTokenPfx <+: token then
    if token.length ≠ shareTokenPfx.length + tokenLength then
      .error "invalid share token length"
    else .ok .share
  else if spectatorTokenPfx <+: token then
    if token.length ≠ spectatorTokenPfx.length + tokenLength then
      .error "invalid spectator token length"
    else .ok .spectator
  else .error "invalid token prefix"

theorem hexEncode_length (bs : List Nat) : (hexEncode bs).length = 2 * bs.length := by
  induction bs with
  | nil => rfl
  | cons b bs ih =>
    simp [hexEncode, hexEncodeByte, ih]
    omega

/-- Claim C6: for every generated share/spectator token pair, format validation
accepts both tokens and classifies the share token as type share and the
spectator token as type spectator; and every string that does not start with
gt_ or st_ with total length equal to the prefix length plus 20 is rejected. -/
theorem tokenRoundTrip_spec (r1 r2 : List Nat) (h1 : r1.length = 10) (h2 : r2.length = 10) :
    ValidateTokenFormat (GenerateTokenPair r1 r2).shareToken = .ok .share ∧
    ValidateTokenFormat (GenerateTokenPair r1 r2).spectatorToken = .ok .spectator ∧
    (∀ s : GoStr, ¬(shareTokenPfx <+: s ∧ s.length = shareTokenPfx.length + tokenLength) →
      ¬(spectatorTokenPfx <+: s ∧ s.length = spectatorTokenPfx.length + tokenLength) →
      ∃ msg, ValidateTokenFormat s = .error msg) := by
  refine ⟨?_, ?_, ?_⟩
  · have hpre : shareTokenPfx <+: (GenerateTokenPair r1 r2).shareToken :=
      List.prefix_append _ _
    have hlen : (GenerateTokenPair r1 r2).shareToken.length =
        shareTokenPfx.length + tokenLength := by
      simp only [GenerateTokenPair, generateToken, List.length_append, hexEncode_length, h1]
      rfl
    simp [ValidateTokenFormat, hpre, hlen]
  · have hpre : spectatorTokenPfx <+: (GenerateTokenPair r1 r2).spectatorToken :=
      List.prefix_append _ _
    have hnotshare : ¬ shareTokenPfx <+: (GenerateTokenPair r1 r2).spectatorToken := by
      intro hcon
      simp only [GenerateTokenPair, generateToken, spectatorTokenPfx, shareTokenPfx] at hcon
      have := (List.cons_prefix_cons.mp hcon).1
      simp at this
    have hlen : (GenerateTokenPair r1 r2).spectatorToken.length =
        spectatorTokenPfx.length + tokenLength := by
      simp only [GenerateTokenPair, generateToken, List.length_append, hexEncode_length, h2]
      rfl
    simp [ValidateTokenFormat, hpre, hnotshare, hlen]
  · intro s hs ht
    unfold ValidateTokenFormat
    by_cases hg : shareTokenPfx <+: s
    · have : s.length ≠ shareTokenPfx.length + tokenLength := fun hl => hs ⟨hg, hl⟩
      simp [hg, this]
    · by_cases hst : spectatorTokenPfx <+: s
      · have : s.length ≠ spectatorTokenPfx.length + tokenLength := fun hl => ht ⟨hst, hl⟩
        simp [hg, hst, this]
      · simp [hg, hst]

/-- Witness for tokenRoundTrip_spec at a concrete pair of 10-byte random draws
(and the rejection branch at a concrete malformed string). -/
theorem tokenRoundTrip_spec_witness :
    ValidateTokenFormat (GenerateTokenPair [0, 1, 2, 3, 4, 5, 6, 7, 8, 9]
      [250, 251, 252, 253, 254, 255, 0, 17, 34, 51]).shareToken = .ok .share ∧
    ValidateTokenFormat (GenerateTokenPair [0, 1, 2, 3, 4, 5, 6, 7, 8, 9]
      [250, 251, 252, 253, 254, 255, 0, 17, 34, 51]).spectatorToken = .ok .spectator ∧
    (∃ msg, ValidateTokenFormat "game_0123456789abcdef0123".data = .error msg) := by
  have h := tokenRoundTrip_spec [0, 1, 2, 3, 4, 5, 6, 7, 8, 9]
    [250, 251, 252, 253, 254, 255, 0, 17, 34, 51] (by decide) (by decide)
  exact ⟨h.1, h.2.1, h.2.2 "game_0123456789abcdef0123".data (by decide) (by decide)⟩

-- Shared domain constants (internal/models/game.go).

def statusSetup : String := "setup"

def statusInProgress : String := "in_progress"

def statusCompleted : String := "completed"

def statusAbandoned : String := "abandoned"

/-- Embedding of models.SideBetType, a Go string type. -/
abbrev SideBetType := String

def sideBetBestNine : SideBetType := "best-nine"

def sideBetPuttPuttPoker : SideBetType := "putt-putt-poker"

def genderMale : String := "male"

def genderFemale : String := "female"

def genderOther : String := "other"

/-- Embedding of a row of the games table (internal/database/migrate.go; the
side_bets column's stored JSON is embedded in its decoded structured form,
the only form the services read and write). -/
structure GameRow where
  id : GoStr
  course : String
  status : String
  handicapEnabled : Bool
  sideBets : List SideBetType
  shareToken : GoStr
  spectatorToken : GoStr
  currentHole : Option Int
  createdAt : Nat
  startedAt : Option Nat
  completedAt : Option Nat
deriving DecidableEq, Repr

-- Game-token authentication middleware (internal/middleware/auth.go).

/-- Embedding of the HTTP method strings the middleware switches on; other
covers every method outside the seven named cases. -/
inductive Method where
  | get
  | head
  | options
  | post
  | put
  | patch
  | delete
  | other
deriving DecidableEq, Repr

/-- Embedding of middleware.GameAuthContext (internal/middleware/auth.go). -/
structure GameAuthContext where
  gameID : GoStr
  token : GoStr
  tokenType : TokenType
  isShare : Bool
  isSpectator : Bool
deriving DecidableEq, Repr

/-- Outcome of the middleware: either an error response is written (reject)
or the request proceeds to the next handler with an auth context. -/
inductive AuthOutcome where
  | reject (code : ErrorCode)
  | proceed (ctx : GameAuthContext)
deriving DecidableEq, Repr

/-- Embedding of ExtractGameIDFromToken (pkg/auth/tokens.go, lines 85-102):
two sequential prefix checks, each returning early only when format
validation succeeds, else falling through to return the raw value. -/
def ExtractGameIDFromToken (s : GoStr) : GoStr × Option TokenType :=
  if shareTokenPfx <+: s then
    match ValidateTokenFormat s with
    | .ok tt => (s, some tt)
    | .error _ =>
      if spectatorTokenPfx <+: s then
        match ValidateTokenFormat s with
        | .ok tt => (s, some tt)
        | .error _ => (s, none)
      else (s, none)
  else if spectatorTokenPfx <+: s then
    match ValidateTokenFormat s with
    | .ok tt => (s, some tt)
    | .error _ => (s, none)
  else (s, none)

/-- Embedding of validateGameToken (internal/middleware/auth.go, lines
111-133): a single-row SELECT on games by token column, excluding abandoned
games.  The Go default case (an invalid token type string) is unreachable
here because the embedded TokenType has exactly the two valid values. -/
def validateGameToken (games : List GameRow) (token : GoStr) (tt : TokenType) :
    Except ErrorCode GoStr :=
  match tt with
  | .share =>
    match games.find? (fun g => decide (g.shareToken = token ∧ g.status ≠ statusAbandoned)) with
    | none => .error errGameNotFound
    | some g => .ok g.id
  | .spectator =>
    match games.find? (fun g => decide (g.spectatorToken = token ∧ g.status ≠ statusAbandoned)) with
    | none => .error errGameNotFound
    | some g => .ok g.id

/-- Embedding of hasPermission (internal/middleware/auth.go, lines 136-147). -/
def hasPermission (authCtx : GameAuthContext) (method : Method) : Bool :=
  match method with
  | .get | .head | .options => true
  | .post | .put | .patch | .delete => authCtx.isShare
  | .other => false

/-- Embedding of the GameAuth middleware (internal/middleware/auth.go, lines
33-108) for one request: the gameId path parameter, the optional
Authorization header, and the request method.  The Go early-return error
writes become reject outcomes; reaching next.ServeHTTP becomes proceed. -/
def GameAuth (games : List GameRow) (gameIdParam : GoStr) (authHeader : Option GoStr)
    (method : Method) : AuthOutcome :=
  if gameIdParam = [] then .reject errValidation
  else
    let tokRes : Except ErrorCode (GoStr × TokenType) :=
      match ExtractGameIDFromToken gameIdParam with
      | (tok, some tt) => .ok (tok, tt)
      | (_, none) =>
        match authHeader with
        | none => .error errInvalidToken
        | some h =>
          let parts := List.splitOn ' ' h
          if parts.length ≠ 2 ∨ parts.getD 0 [] ≠ "Bearer".data then .error errInvalidToken
          else
            match ValidateTokenFormat (parts.getD 1 []) with
            | .error _ => .error errInvalidToken
            | .ok tt => .ok (parts.getD 1 [], tt)
    match tokRes with
    | .error e => .reject e
    | .ok (tok, tt) =>
      match validateGameToken games tok tt with
      | .error _ => .reject errInvalidToken
      | .ok gid =>
        let authCtx : GameAuthContext :=
          { gameID := gid, token := tok, tokenType := tt,
            isShare := decide (tt = .share), isSpectator := decide (tt = .spectator) }
        if hasPermission authCtx method then .proceed authCtx
        else .reject errInsufficientPermissions

/-- The POST, PUT, PATCH and DELETE arm of the middleware's method switch. -/
def isWriteMethod (m : Method) : Prop :=
  m = .post ∨ m = .put ∨ m = .patch ∨ m = .delete

/-- The GET, HEAD and OPTIONS arm of the middleware's method switch. -/
def isReadMethod (m : Method) : Prop :=
  m = .get ∨ m = .head ∨ m = .options

theorem extractGameID_of_valid (s : GoStr) (tt : TokenType)
    (h : ValidateTokenFormat s = .ok tt) :
    ExtractGameIDFromToken s = (s, some tt) := by
  by_cases hg : shareTokenPfx <+: s
  · simp [ExtractGameIDFromToken, hg, h]
  · by_cases hs : spectatorTokenPfx <+: s
    · simp [ExtractGameIDFromToken, hg, hs, h]
    · exfalso
      simp [ValidateTokenFormat, hg, hs] at h

theorem validToken_ne_nil (s : GoStr) (tt : TokenType)
    (h : ValidateTokenFormat s = .ok tt) : s ≠ [] := by
  intro hnil
  subst hnil
  have : ValidateTokenFormat ([] : GoStr) = .error "invalid token prefix" := rfl
  rw [this] at h
  cases h

/-- Claim C1: for every request under the games subtree carrying a valid
token resolving to a game: a spectator token with POST, PUT, PATCH or DELETE
is rejected with insufficient_permissions; a share token passes the
method-permission check for those methods; GET, HEAD or OPTIONS pass for
both token types; and a token that does not resolve to a game yields
invalid_token. -/
theorem gameAuth_spec (games : List GameRow) (tok : GoStr) (tt : TokenType) (m : Method)
    (hfmt : ValidateTokenFormat tok = .ok tt) :
    (∀ gid, validateGameToken games tok tt = .ok gid →
      ((tt = .spectator → isWriteMethod m →
          GameAuth games tok none m = .reject errInsufficientPermissions) ∧
       (tt = .share → isWriteMethod m →
          GameAuth games tok none m = .proceed
            { gameID := gid, token := tok, tokenType := tt,
              isShare := true, isSpectator := false }) ∧
       (isReadMethod m →
          GameAuth games tok none m = .proceed
            { gameID := gid, token := tok, tokenType := tt,
              isShare := decide (tt = .share), isSpectator := decide (tt = .spectator) }))) ∧
    (∀ e, validateGameToken games tok tt = .error e →
      GameAuth games tok none m = .reject errInvalidToken) := by
  have hne : tok ≠ [] := validToken_ne_nil tok tt hfmt
  have hex : ExtractGameIDFromToken tok = (tok, some tt) := extractGameID_of_valid tok tt hfmt
  constructor
  · intro gid hok
    refine ⟨?_, ?_, ?_⟩
    · intro htt hm
      subst htt
      rcases hm with h | h | h | h <;> subst h <;>
        simp [GameAuth, hex, hok, hne, hasPermission]
    · intro htt hm
      subst htt
      rcases hm with h | h | h | h <;> subst h <;>
        simp [GameAuth, hex, hok, hne, hasPermission]
    · intro hm
      rcases hm with h | h | h <;> subst h <;>
        simp [GameAuth, hex, hok, hne, hasPermission]
  · intro e herr
    simp [GameAuth, hex, herr, hne]

/-- Concrete games table used by the gameAuth_spec witness. -/
def authGamesW : List GameRow :=
  [{ id := "game_0123456789abcdef0123".data, course := "diamond-run", status := "setup",
     handicapEnabled := false, sideBets := [],
     shareToken := "gt_aaaaaaaaaaaaaaaaaaaa".data,
     spectatorToken := "st_aaaaaaaaaaaaaaaaaaaa".data,
     currentHole := none, createdAt := 0, startedAt := none, completedAt := none }]

/-- Witness for gameAuth_spec: all four outcomes at a concrete games table,
tokens and methods. -/
theorem gameAuth_spec_witness :
    GameAuth authGamesW "st_aaaaaaaaaaaaaaaaaaaa".data none .post =
      .reject errInsufficientPermissions ∧
    GameAuth authGamesW "gt_aaaaaaaaaaaaaaaaaaaa".data none .put =
      .proceed { gameID := "game_0123456789abcdef0123".data,
                 token := "gt_aaaaaaaaaaaaaaaaaaaa".data, tokenType := .share,
                 isShare := true, isSpectator := false } ∧
    GameAuth authGamesW "st_aaaaaaaaaaaaaaaaaaaa".data none .get =
      .proceed { gameID := "game_0123456789abcdef0123".data,
                 token := "st_aaaaaaaaaaaaaaaaaaaa".data, tokenType := .spectator,
                 isShare := false, isSpectator := true } ∧
    GameAuth authGamesW "gt_bbbbbbbbbbbbbbbbbbbb".data none .get =
      .reject errInvalidToken := by
  refine ⟨?_, ?_, ?_, ?_⟩
  · exact ((gameAuth_spec authGamesW "st_aaaaaaaaaaaaaaaaaaaa".data .spectator .post rfl).1
      "game_0123456789abcdef0123".data rfl).1 rfl (Or.inl rfl)
  · exact ((gameAuth_spec authGamesW "gt_aaaaaaaaaaaaaaaaaaaa".data .share .put rfl).1
      "game_0123456789abcdef0123".data rfl).2.1 rfl (Or.inr (Or.inl rfl))
  · exact ((gameAuth_spec authGamesW "st_aaaaaaaaaaaaaaaaaaaa".data .spectator .get rfl).1
      "game_0123456789abcdef0123".data rfl).2.2 (Or.inl rfl)
  · exact (gameAuth_spec authGamesW "gt_bbbbbbbbbbbbbbbbbbbb".data .share .get rfl).2
      errGameNotFound rfl

-- Domain rows and database state (internal/models, internal/database/migrate.go).

/-- Embedding of a row of the players table. -/
structure PlayerRow where
  id : GoStr
  gameID : GoStr
  name : GoStr
  handicap : Rat
  gender : Option String
  position : Int
  createdAt : Nat
deriving DecidableEq, Repr

/-- Embedding of a row of the scores table.  The score_to_par column stores
the integer strokes - par that RecordScore inserts; the API-facing string
form is produced by FormatScoreToPar. -/
structure ScoreRow where
  id : GoStr
  playerID : GoStr
  gameID : GoStr
  hole : Int
  strokes : Int
  putts : Int
  par : Int
  handicapStroke : Bool
  scoreToPar : Int
  effectiveScore : Int
  createdAt : Nat
  updatedAt : Option Nat
deriving DecidableEq, Repr

/-- Embedding of a row of the course_data reference table. -/
structure CourseHoleRow where
  courseName : String
  hole : Int
  par : Int
  handicapRanking : Int
  yardage : Option Int
  description : Option String
deriving DecidableEq, Repr

/-- Embedding of models.HoleScore (internal/models/sidebet.go). -/
structure HoleScore where
  hole : Int
  strokes : Int
  par : Int
  scoreToPar : Int
  handicapStroke : Bool
deriving DecidableEq, Repr

/-- Embedding of models.PuttingStats (internal/models/sidebet.go). -/
structure PuttingStats where
  onePutts : Int
  holeInOnes : Int
  threePutts : Int
  averagePutts : Rat
deriving DecidableEq, Repr

/-- Embedding of models.CardEvent (internal/models/sidebet.go). -/
structure CardEvent where
  hole : Option Int
  action : String
  cardsChange : Int
  penaltyAmount : Option Rat
  totalCards : Int
deriving DecidableEq, Repr

/-- Embedding of models.BestNineCalculationData (internal/models/sidebet.go). -/
structure BestNineCalculationData where
  bestHoles : List Int
  worstHoles : List Int
  rawScore : Int
  handicapAdjustment : Int
  finalScore : Int
  usedScores : List HoleScore
deriving DecidableEq, Repr

/-- Embedding of models.PuttPuttPokerCalculationData (internal/models/sidebet.go). -/
structure PuttPuttPokerCalculationData where
  totalCards : Int
  cardsEarned : Int
  penalties : Int
  puttingStats : PuttingStats
  cardHistory : List CardEvent
deriving DecidableEq, Repr

/-- The decoded calculation_data payload of a side_bet_calculations row. -/
inductive CalcData where
  | bestNine (d : BestNineCalculationData)
  | puttPuttPoker (d : PuttPuttPokerCalculationData)
deriving DecidableEq, Repr

/-- Embedding of a row of the side_bet_calculations table; calculation_data
is none when the Go code inserts a nil payload (unknown bet type). -/
structure SideBetCalcRow where
  id : GoStr
  gameID : GoStr
  playerID : GoStr
  betType : SideBetType
  calculationData : Option CalcData
deriving DecidableEq, Repr

/-- Embedding of a row of the putt_putt_poker_cards table. -/
structure PokerCardRow where
  id : GoStr
  playerID : GoStr
  gameID : GoStr
  hole : Option Int
  action : String
  cardsChange : Int
  penaltyAmount : Option Rat
  totalCards : Int
deriving DecidableEq, Repr

/-- Embedding of a row of the poker_hands table (only the columns the
embedded services touch). -/
structure PokerHandRow where
  id : GoStr
  gameID : GoStr
  playerID : GoStr
  totalCardsEarned : Int
  handRank : Int
  position : Int
deriving DecidableEq, Repr

/-- The embedded database: one list of rows per table the services read
or write. -/
structure DB where
  games : List GameRow
  players : List PlayerRow
  scores : List ScoreRow
  courseData : List CourseHoleRow
  sideBetCalcs : List SideBetCalcRow
  pokerCards : List PokerCardRow
  pokerHands : List PokerHandRow
deriving DecidableEq, Repr

/-- Single-row SELECT on games by id. -/
def findGame (db : DB) (gameID : GoStr) : Option GameRow :=
  db.games.find? (fun g => decide (g.id = gameID))

/-- Embedding of models.FormatScoreToPar (internal/models/score.go, lines
96-106). -/
def FormatScoreToPar (strokes par : Int) : String :=
  let diff := strokes - par
  if diff = 0 then "E"
  else if diff > 0 then "+" ++ toString diff
  else toString diff

/-- Embedding of models.CalculateEffectiveScore (internal/models/score.go,
lines 109-114). -/
def CalculateEffectiveScore (strokes par : Int) (handicapStroke : Bool) : Int :=
  if handicapStroke then strokes - 1 - par
  else strokes - par

-- Score service (internal/services/score.go).

/-- Embedding of models.ScoreRequest. -/
structure ScoreRequest where
  hole : Int
  strokes : Int
  putts : Int
deriving DecidableEq, Repr

/-- Embedding of models.UpdateScoreRequest (optional fields). -/
structure UpdateScoreRequest where
  strokes : Option Int
  putts : Option Int
deriving DecidableEq, Repr

/-- Embedding of ScoreService.validateScoreRequest (internal/services/
score.go, lines 212-237). -/
def validateScoreRequest (req : ScoreRequest) : Option ErrorCode :=
  if req.hole < 1 ∨ req.hole > 18 then some errValidation
  else if req.strokes < 1 ∨ req.strokes > 20 then some errValidation
  else if req.putts < 0 ∨ req.putts > 10 then some errValidation
  else if req.putts > req.strokes then some errInvalidPuttCount
  else none

/-- Embedding of ScoreService.validateScoreBusinessRules (internal/services/
score.go, lines 255-297): the two COUNT queries become lengths of filters;
a missing player yields the generic resource_not_found code built by
errors.ResourceNotFoundError. -/
def validateScoreBusinessRules (db : DB) (gameID playerID : GoStr) (req : ScoreRequest) :
    Option ErrorCode :=
  match findGame db gameID with
  | none => some errResourceNotFound
  | some g =>
    if g.status ≠ statusInProgress then some errGameNotStarted
    else if (db.players.filter
        (fun p => decide (p.id = playerID ∧ p.gameID = gameID))).length = 0 then
      some errResourceNotFound
    else if 0 < (db.scores.filter
        (fun s0 => decide (s0.playerID = playerID ∧ s0.hole = req.hole))).length then
      some errScoreAlreadyExists
    else none

/-- Embedding of ScoreService.getHolePar (internal/services/score.go, lines
299-318): course lookup from the game row, then par lookup from course_data. -/
def getHolePar (db : DB) (gameID : GoStr) (hole : Int) : Option Int :=
  match findGame db gameID with
  | none => none
  | some g =>
    (db.courseData.find? (fun c => decide (c.courseName = g.course ∧ c.hole = hole))).map
      (fun c => c.par)

/-- Embedding of ScoreService.calculateHandicapStroke (internal/services/
score.go, lines 320-324): the Go placeholder always returns false. -/
def calculateHandicapStroke (_db : DB) (_gameID _playerID : GoStr) (_hole : Int) : Bool :=
  false

/-- Embedding of ScoreService.RecordScore (internal/services/score.go, lines
26-107).  The generated score id and the clock are passed in explicitly; a
getHolePar failure is wrapped by fmt.Errorf in Go and so surfaces as the
generic internal_server_error after errors.FromError. -/
def RecordScore (db : DB) (gameID playerID : GoStr) (req : ScoreRequest)
    (scoreID : GoStr) (now : Nat) : Except ErrorCode (DB × ScoreRow) :=
  match validateScoreRequest req with
  | some e => .error e
  | none =>
    match validateScoreBusinessRules db gameID playerID req with
    | some e => .error e
    | none =>
      match getHolePar db gameID req.hole with
      | none => .error errInternalServer
      | some par =>
        let handicapStroke := calculateHandicapStroke db gameID playerID req.hole
        let score : ScoreRow :=
          { id := scoreID, playerID := playerID, gameID := gameID,
            hole := req.hole, strokes := req.strokes, putts := req.putts, par := par,
            handicapStroke := handicapStroke,
            scoreToPar := req.strokes - par,
            effectiveScore := CalculateEffectiveScore req.strokes par handicapStroke,
            createdAt := now, updatedAt := none }
        .ok ({ db with scores := db.scores ++ [score] }, score)

/-- At most one scores row per (player, hole) pair. -/
def scoresKeyUnique (l : List ScoreRow) : Prop :=
  List.Pairwise (fun a b => ¬(a.playerID = b.playerID ∧ a.hole = b.hole)) l

theorem validateScoreRequest_none_iff (req : ScoreRequest) :
    validateScoreRequest req = none ↔
      (1 ≤ req.hole ∧ req.hole ≤ 18 ∧ 1 ≤ req.strokes ∧ req.strokes ≤ 20 ∧
       0 ≤ req.putts ∧ req.putts ≤ 10 ∧ req.putts ≤ req.strokes) := by
  unfold validateScoreRequest
  split_ifs with h1 h2 h3 h4 <;> simp <;> omega

theorem validateScoreBusinessRules_none (db : DB) (gameID playerID : GoStr)
    (req : ScoreRequest)
    (h : validateScoreBusinessRules db gameID playerID req = none) :
    ∃ g, findGame db gameID = some g ∧ g.status = statusInProgress ∧
      (db.players.filter (fun p => decide (p.id = playerID ∧ p.gameID = gameID))).length ≠ 0 ∧
      (db.scores.filter
        (fun s0 => decide (s0.playerID = playerID ∧ s0.hole = req.hole))).length = 0 := by
  unfold validateScoreBusinessRules at h
  split at h
  next heq => simp at h
  next g heq =>
    refine ⟨g, heq, ?_⟩
    split_ifs at h with h1 h2 h3
    exact ⟨not_not.mp h1, h2, by omega⟩

/-- The 18 Diamond Run rows seeded by migration 2 (internal/database/
migrate.go, lines 224-242): (hole, par, handicap_ranking). -/
def diamondRunCourse : List CourseHoleRow :=
  [⟨"diamond-run", 1, 4, 10, none, none⟩, ⟨"diamond-run", 2, 3, 18, none, none⟩,
   ⟨"diamond-run", 3, 5, 2, none, none⟩, ⟨"diamond-run", 4, 4, 8, none, none⟩,
   ⟨"diamond-run", 5, 3, 16, none, none⟩, ⟨"diamond-run", 6, 4, 12, none, none⟩,
   ⟨"diamond-run", 7, 4, 6, none, none⟩, ⟨"diamond-run", 8, 3, 14, none, none⟩,
   ⟨"diamond-run", 9, 5, 4, none, none⟩, ⟨"diamond-run", 10, 4, 9, none, none⟩,
   ⟨"diamond-run", 11, 3, 17, none, none⟩, ⟨"diamond-run", 12, 5, 1, none, none⟩,
   ⟨"diamond-run", 13, 3, 15, none, none⟩, ⟨"diamond-run", 14, 4, 11, none, none⟩,
   ⟨"diamond-run", 15, 4, 7, none, none⟩, ⟨"diamond-run", 16, 4, 13, none, none⟩,
   ⟨"diamond-run", 17, 5, 3, none, none⟩, ⟨"diamond-run", 18, 4, 5, none, none⟩]

/-- Claim C2, amended: RecordScore accepts a score only when hole, strokes
and putts are within bounds with putts at most strokes; a game whose status
is not in_progress fails with game_not_started; a player that does not
belong to the game fails with resource_not_found (the generic not-found code
naming the player; the Go service never uses the dedicated player_not_found
code); an existing score for the same player and hole fails with
score_already_exists; and every persisted score satisfies the bounds and
preserves (player, hole) uniqueness. -/
theorem recordScore_spec (db : DB) (gameID playerID : GoStr) (req : ScoreRequest)
    (scoreID : GoStr) (now : Nat) :
    (∀ db2 s, RecordScore db gameID playerID req scoreID now = .ok (db2, s) →
      ((1 ≤ s.hole ∧ s.hole ≤ 18 ∧ 1 ≤ s.strokes ∧ s.strokes ≤ 20 ∧
        0 ≤ s.putts ∧ s.putts ≤ 10 ∧ s.putts ≤ s.strokes) ∧
       s.playerID = playerID ∧ s.gameID = gameID ∧ s.hole = req.hole ∧
       (∃ g, findGame db gameID = some g ∧ g.status = statusInProgress) ∧
       (db.players.filter
         (fun p => decide (p.id = playerID ∧ p.gameID = gameID))).length ≠ 0 ∧
       (db.scores.filter
         (fun s0 => decide (s0.playerID = playerID ∧ s0.hole = req.hole))).length = 0 ∧
       db2.scores = db.scores ++ [s] ∧
       (scoresKeyUnique db.scores → scoresKeyUnique db2.scores))) ∧
    (validateScoreRequest req = none →
      ∀ g, findGame db gameID = some g → g.status ≠ statusInProgress →
        RecordScore db gameID playerID req scoreID now = .error errGameNotStarted) ∧
    (validateScoreRequest req = none →
      ∀ g, findGame db gameID = some g → g.status = statusInProgress →
      (db.players.filter
        (fun p => decide (p.id = playerID ∧ p.gameID = gameID))).length = 0 →
        RecordScore db gameID playerID req scoreID now = .error errResourceNotFound) ∧
    (validateScoreRequest req = none →
      ∀ g, findGame db gameID = some g → g.status = statusInProgress →
      (db.players.filter
        (fun p => decide (p.id = playerID ∧ p.gameID = gameID))).length ≠ 0 →
      (db.scores.filter
        (fun s0 => decide (s0.playerID = playerID ∧ s0.hole = req.hole))).length ≠ 0 →
        RecordScore db gameID playerID req scoreID now = .error errScoreAlreadyExists) := by
  refine ⟨?_, ?_, ?_, ?_⟩
  · intro db2 s hok
    unfold RecordScore at hok
    split at hok
    next e heq => simp at hok
    next hvr =>
      split at hok
      next e heq => simp at hok
      next hvb =>
        split at hok
        next heq => simp at hok
        next par hpar =>
          simp only [Except.ok.injEq, Prod.mk.injEq] at hok
          obtain ⟨hdb2, hsval⟩ := hok
          subst hsval
          obtain ⟨b1, b2, b3, b4, b5, b6, b7⟩ := (validateScoreRequest_none_iff req).mp hvr
          obtain ⟨g, hg, hst, hp, hs0⟩ :=
            validateScoreBusinessRules_none db gameID playerID req hvb
          refine ⟨⟨b1, b2, b3, b4, b5, b6, b7⟩, rfl, rfl, rfl, ⟨g, hg, hst⟩, hp, hs0,
            by rw [← hdb2], ?_⟩
          intro hu
          rw [← hdb2]
          have hall : ∀ x ∈ db.scores, ¬(x.playerID = playerID ∧ x.hole = req.hole) := by
            rw [List.length_eq_zero, List.filter_eq_nil_iff] at hs0
            intro x hx hcon
            exact hs0 x hx (by simpa using hcon)
          rw [scoresKeyUnique, List.pairwise_append]
          refine ⟨hu, List.pairwise_singleton _ _, ?_⟩
          intro a ha b hb
          simp only [List.mem_singleton] at hb
          subst hb
          exact hall a ha
  · intro hvr g hfind hst
    have hvb : validateScoreBusinessRules db gameID playerID req = some errGameNotStarted := by
      unfold validateScoreBusinessRules
      rw [hfind]
      simp [hst]
    simp [RecordScore, hvr, hvb]
  · intro hvr g hfind hst hp0
    have hvb : validateScoreBusinessRules db gameID playerID req =
        some errResourceNotFound := by
      unfold validateScoreBusinessRules
      rw [hfind]
      show (if g.status ≠ statusInProgress then some errGameNotStarted
        else if (db.players.filter
            (fun p => decide (p.id = playerID ∧ p.gameID = gameID))).length = 0 then
          some errResourceNotFound
        else if 0 < (db.scores.filter
            (fun s0 => decide (s0.playerID = playerID ∧ s0.hole = req.hole))).length then
          some errScoreAlreadyExists
        else none) = some errResourceNotFound
      rw [if_neg (fun hcon => hcon hst), if_pos hp0]
    simp [RecordScore, hvr, hvb]
  · intro hvr g hfind hst hp hs0
    have hvb : validateScoreBusinessRules db gameID playerID req =
        some errScoreAlreadyExists := by
      unfold validateScoreBusinessRules
      rw [hfind]
      show (if g.status ≠ statusInProgress then some errGameNotStarted
        else if (db.players.filter
            (fun p => decide (p.id = playerID ∧ p.gameID = gameID))).length = 0 then
          some errResourceNotFound
        else if 0 < (db.scores.filter
            (fun s0 => decide (s0.playerID = playerID ∧ s0.hole = req.hole))).length then
          some errScoreAlreadyExists
        else none) = some errScoreAlreadyExists
      rw [if_neg (fun hcon => hcon hst), if_neg hp, if_pos (Nat.pos_of_ne_zero hs0)]
    simp [RecordScore, hvr, hvb]

/-- A game row in progress used by the RecordScore examples. -/
def gameC2 : GameRow :=
  { id := "game_22222222222222222222".data, course := "diamond-run",
    status := "in_progress", handicapEnabled := false, sideBets := [],
    shareToken := "gt_22222222222222222222".data,
    spectatorToken := "st_22222222222222222222".data,
    currentHole := some 1, createdAt := 0, startedAt := some 1, completedAt := none }

/-- A player row belonging to gameC2. -/
def playerC2 : PlayerRow :=
  { id := "player_aaaaaaaaaaaaaaaaaaaa".data, gameID := "game_22222222222222222222".data,
    name := "Alice".data, handicap := 18, gender := none, position := 1, createdAt := 0 }

/-- Database whose game is in progress but whose players table does not
contain the requested player. -/
def dbC2NoPlayer : DB :=
  { games := [gameC2], players := [], scores := [], courseData := diamondRunCourse,
    sideBetCalcs := [], pokerCards := [], pokerHands := [] }

/-- Counterexample to claim C2 as stated: with the game in progress and the
player absent from the game, RecordScore fails with the generic
resource_not_found code, not with player_not_found. -/
theorem recordScore_claim_counterexample :
    RecordScore dbC2NoPlayer "game_22222222222222222222".data
        "player_aaaaaaaaaaaaaaaaaaaa".data ⟨1, 4, 2⟩
        "score_11111111111111111111".data 5 = .error errResourceNotFound ∧
      errResourceNotFound ≠ errPlayerNotFound := by
  exact ⟨rfl, by decide⟩

/-- Database whose game is still in setup. -/
def dbC2Setup : DB :=
  { games := [{ gameC2 with status := "setup" }], players := [playerC2], scores := [],
    courseData := diamondRunCourse, sideBetCalcs := [], pokerCards := [], pokerHands := [] }

/-- Database where the player already has a score for hole 1. -/
def dbC2Dup : DB :=
  { games := [gameC2], players := [playerC2],
    scores := [{ id := "score_00000000000000000000".data,
                 playerID := "player_aaaaaaaaaaaaaaaaaaaa".data,
                 gameID := "game_22222222222222222222".data,
                 hole := 1, strokes := 5, putts := 2, par := 4, handicapStroke := false,
                 scoreToPar := 1, effectiveScore := 1, createdAt := 1, updatedAt := none }],
    courseData := diamondRunCourse, sideBetCalcs := [], pokerCards := [], pokerHands := [] }

/-- Witness for recordScore_spec: the game_not_started and
score_already_exists branches at concrete databases. -/
theorem recordScore_spec_witness :
    RecordScore dbC2Setup "game_22222222222222222222".data
        "player_aaaaaaaaaaaaaaaaaaaa".data ⟨1, 4, 2⟩
        "score_11111111111111111111".data 5 = .error errGameNotStarted ∧
    RecordScore dbC2Dup "game_22222222222222222222".data
        "player_aaaaaaaaaaaaaaaaaaaa".data ⟨1, 4, 2⟩
        "score_11111111111111111111".data 5 = .error errScoreAlreadyExists := by
  constructor
  · exact (recordScore_spec dbC2Setup "game_22222222222222222222".data
      "player_aaaaaaaaaaaaaaaaaaaa".data ⟨1, 4, 2⟩
      "score_11111111111111111111".data 5).2.1 rfl { gameC2 with status := "setup" }
      rfl (by decide)
  · exact (recordScore_spec dbC2Dup "game_22222222222222222222".data
      "player_aaaaaaaaaaaaaaaaaaaa".data ⟨1, 4, 2⟩
      "score_11111111111111111111".data 5).2.2.2 rfl gameC2 rfl rfl
      (by decide) (by decide)

/-- Embedding of ScoreService.getScore (internal/services/score.go, lines
326-367): single-row SELECT on scores by (game, player, hole). -/
def getScore (db : DB) (gameID playerID : GoStr) (hole : Int) : Option ScoreRow :=
  db.scores.find?
    (fun s => decide (s.gameID = gameID ∧ s.playerID = playerID ∧ s.hole = hole))

/-- Embedding of ScoreService.validateUpdateScoreRequest (internal/services/
score.go, lines 239-253): each provided field is range-checked. -/
def validateUpdateScoreRequest (req : UpdateScoreRequest) : Option ErrorCode :=
  match req.strokes with
  | some st =>
    if st < 1 ∨ st > 20 then some errValidation
    else
      match req.putts with
      | some pt => if pt < 0 ∨ pt > 10 then some errValidation else none
      | none => none
  | none =>
    match req.putts with
    | some pt => if pt < 0 ∨ pt > 10 then some errValidation else none
    | none => none

/-- Embedding of ScoreService.UpdateScore (internal/services/score.go, lines
110-163): load the existing score, apply the provided subset, check putts
against strokes, recompute the derived columns against the existing par and
handicap_stroke, and write back by score id (the trailing re-read returns
the updated row). -/
def UpdateScore (db : DB) (gameID playerID : GoStr) (hole : Int)
    (req : UpdateScoreRequest) (now : Nat) : Except ErrorCode (DB × ScoreRow) :=
  match getScore db gameID playerID hole with
  | none => .error errResourceNotFound
  | some existingScore =>
    match validateUpdateScoreRequest req with
    | some e => .error e
    | none =>
      let strokes := req.strokes.getD existingScore.strokes
      let putts := req.putts.getD existingScore.putts
      if putts > strokes then .error errInvalidPuttCount
      else
        let updated : ScoreRow :=
          { existingScore with
            strokes := strokes, putts := putts,
            scoreToPar := strokes - existingScore.par,
            effectiveScore :=
              CalculateEffectiveScore strokes existingScore.par existingScore.handicapStroke,
            updatedAt := some now }
        .ok
          ({ db with scores :=
              db.scores.map (fun s0 => if s0.id = existingScore.id then updated else s0) },
           updated)

/-- Claim C9: UpdateScore leaves par and handicap_stroke unchanged, replaces
only the provided subset of strokes/putts, fails with invalid_putt_count
when the resulting putts exceed the resulting strokes, recomputes
score_to_par and effective_score from the new strokes and the existing par
and handicap_stroke, sets updated_at, and leaves id, player_id, game_id,
hole and created_at unchanged. -/
theorem updateScore_spec (db : DB) (gameID playerID : GoStr) (hole : Int)
    (req : UpdateScoreRequest) (now : Nat) (ex : ScoreRow)
    (hget : getScore db gameID playerID hole = some ex)
    (hval : validateUpdateScoreRequest req = none) :
    (req.putts.getD ex.putts > req.strokes.getD ex.strokes →
      UpdateScore db gameID playerID hole req now = .error errInvalidPuttCount) ∧
    (¬(req.putts.getD ex.putts > req.strokes.getD ex.strokes) →
      ∃ db2 s, UpdateScore db gameID playerID hole req now = .ok (db2, s) ∧
        s.par = ex.par ∧ s.handicapStroke = ex.handicapStroke ∧
        s.id = ex.id ∧ s.playerID = ex.playerID ∧ s.gameID = ex.gameID ∧
        s.hole = ex.hole ∧ s.createdAt = ex.createdAt ∧
        s.strokes = req.strokes.getD ex.strokes ∧
        s.putts = req.putts.getD ex.putts ∧
        s.scoreToPar = req.strokes.getD ex.strokes - ex.par ∧
        s.effectiveScore =
          CalculateEffectiveScore (req.strokes.getD ex.strokes) ex.par ex.handicapStroke ∧
        s.updatedAt = some now ∧
        db2.scores = db.scores.map (fun s0 => if s0.id = ex.id then s else s0) ∧
        db2.games = db.games ∧ db2.players = db.players) := by
  constructor
  · intro hgt
    simp only [UpdateScore, hget, hval]
    rw [if_pos hgt]
  · intro hle
    have hrun : UpdateScore db gameID playerID hole req now = .ok ({ db with scores := db.scores.map (fun s0 => if s0.id = ex.id then { ex with strokes := req.strokes.getD ex.strokes, putts := req.putts.getD ex.putts, scoreToPar := req.strokes.getD ex.strokes - ex.par, effectiveScore := CalculateEffectiveScore (req.strokes.getD ex.strokes) ex.par ex.handicapStroke, updatedAt := some now } else s0) }, { ex with strokes := req.strokes.getD ex.strokes, putts := req.putts.getD ex.putts, scoreToPar := req.strokes.getD ex.strokes - ex.par, effectiveScore := CalculateEffectiveScore (req.strokes.getD ex.strokes) ex.par ex.handicapStroke, updatedAt := some now }) := by
      simp only [UpdateScore, hget, hval]
      rw [if_neg hle]
    exact ⟨_, _, hrun, rfl, rfl, rfl, rfl, rfl, rfl, rfl, rfl, rfl, rfl, rfl, rfl, rfl, rfl, rfl⟩

/-- The existing score row of dbC2Dup, as a named value. -/
def scoreC9 : ScoreRow :=
  { id := "score_00000000000000000000".data,
    playerID := "player_aaaaaaaaaaaaaaaaaaaa".data,
    gameID := "game_22222222222222222222".data,
    hole := 1, strokes := 5, putts := 2, par := 4, handicapStroke := false,
    scoreToPar := 1, effectiveScore := 1, createdAt := 1, updatedAt := none }

/-- Witness for updateScore_spec: at the concrete database dbC2Dup, updating
putts above strokes fails with invalid_putt_count, and updating strokes to 4
recomputes the derived columns against the stored par while keeping putts. -/
theorem updateScore_spec_witness :
    UpdateScore dbC2Dup "game_22222222222222222222".data
        "player_aaaaaaaaaaaaaaaaaaaa".data 1 ⟨some 4, some 5⟩ 7 =
      .error errInvalidPuttCount ∧
    (∃ db2 s, UpdateScore dbC2Dup "game_22222222222222222222".data
        "player_aaaaaaaaaaaaaaaaaaaa".data 1 ⟨some 4, none⟩ 7 = .ok (db2, s) ∧
      s.par = scoreC9.par ∧ s.handicapStroke = scoreC9.handicapStroke ∧
      s.strokes = 4 ∧ s.putts = 2 ∧ s.scoreToPar = 0 ∧ s.updatedAt = some 7) := by
  constructor
  · exact (updateScore_spec dbC2Dup "game_22222222222222222222".data
      "player_aaaaaaaaaaaaaaaaaaaa".data 1 ⟨some 4, some 5⟩ 7 scoreC9 rfl rfl).1 (by decide)
  · obtain ⟨db2, s, h1, hpar, hhs, hid, hpid, hgid, hhole, hca, hstr, hput, hstp, heff,
      hupd, hsc, hgm, hpl⟩ := (updateScore_spec dbC2Dup "game_22222222222222222222".data
      "player_aaaaaaaaaaaaaaaaaaaa".data 1 ⟨some 4, none⟩ 7 scoreC9 rfl rfl).2 (by decide)
    refine ⟨db2, s, h1, hpar, hhs, ?_, ?_, ?_, hupd⟩
    · rw [hstr]
      decide
    · rw [hput]
      decide
    · rw [hstp]
      decide

-- Overall leaderboard (internal/services/score.go, getOverallLeaderboard).

/-- Embedding of models.LeaderboardEntry plus the SQL aggregate total_score
that the query computes, orders by, and formats into the score field (the
Go struct nests player id/name/handicap in a PlayerSummary; they are
flattened here). -/
structure LeaderboardEntry where
  position : Int
  playerID : GoStr
  playerName : GoStr
  handicap : Option Rat
  score : String
  holesCompleted : Nat
  totalPutts : Int
  totalScore : Int
deriving DecidableEq, Repr

/-- One row of the leaderboard query for one player: COUNT(s.id),
COALESCE(SUM(s.score_to_par), 0) and COALESCE(SUM(s.putts), 0) over the
LEFT JOIN on scores by player id; position is the Go zero value before the
scan loop assigns it. -/
def playerAgg (db : DB) (p : PlayerRow) : LeaderboardEntry :=
  let scores := db.scores.filter (fun s => decide (s.playerID = p.id))
  let totalScore := (scores.map (fun s => s.scoreToPar)).sum
  { position := 0, playerID := p.id, playerName := p.name, handicap := some p.handicap,
    score := FormatScoreToPar totalScore 0,
    holesCompleted := scores.length,
    totalPutts := (scores.map (fun s => s.putts)).sum,
    totalScore := totalScore }

/-- The ORDER BY total_score ASC, holes_completed DESC relation of the
leaderboard query. -/
def lbOrder (a b : LeaderboardEntry) : Prop :=
  a.totalScore < b.totalScore ∨
    (a.totalScore = b.totalScore ∧ b.holesCompleted ≤ a.holesCompleted)

instance : DecidableRel lbOrder := fun a b => by
  unfold lbOrder
  infer_instance

instance : IsTotal LeaderboardEntry lbOrder :=
  ⟨fun a b => by unfold lbOrder; omega⟩

instance : IsTrans LeaderboardEntry lbOrder :=
  ⟨fun a b c hab hbc => by unfold lbOrder at hab hbc ⊢; omega⟩

/-- The scan loop of getOverallLeaderboard: position starts at 1 and is
incremented per row. -/
def assignPositions : Int → List LeaderboardEntry → List LeaderboardEntry
  | _, [] => []
  | pos, e :: rest => { e with position := pos } :: assignPositions (pos + 1) rest

/-- Embedding of ScoreService.getOverallLeaderboard (internal/services/
score.go, lines 514-566): aggregate per player of the game, sort by the
ORDER BY relation, then assign 1-based positions in scan order. -/
def getOverallLeaderboard (db : DB) (gameID : GoStr) : List LeaderboardEntry :=
  assignPositions 1
    (List.insertionSort lbOrder
      ((db.players.filter (fun p => decide (p.gameID = gameID))).map (playerAgg db)))

/-- The integer sequence k, k+1, ..., k+n-1. -/
def intRange : Int → Nat → List Int
  | _, 0 => []
  | k, n + 1 => k :: intRange (k + 1) n

/-- Forget the position field of a leaderboard entry. -/
def clearPosition (e : LeaderboardEntry) : LeaderboardEntry := { e with position := 0 }

theorem assignPositions_map_clear (k : Int) (l : List LeaderboardEntry) :
    (assignPositions k l).map clearPosition = l.map clearPosition := by
  induction l generalizing k with
  | nil => rfl
  | cons e rest ih => simp [assignPositions, clearPosition, ih]

theorem assignPositions_map_position (k : Int) (l : List LeaderboardEntry) :
    (assignPositions k l).map (fun e => e.position) = intRange k l.length := by
  induction l generalizing k with
  | nil => rfl
  | cons e rest ih => simp [assignPositions, intRange, ih]

theorem assignPositions_length (k : Int) (l : List LeaderboardEntry) :
    (assignPositions k l).length = l.length := by
  induction l generalizing k with
  | nil => rfl
  | cons e rest ih => simp [assignPositions, ih]

theorem mem_assignPositions {x : LeaderboardEntry} (k : Int) (l : List LeaderboardEntry)
    (hx : x ∈ assignPositions k l) :
    ∃ y ∈ l, x.totalScore = y.totalScore ∧ x.holesCompleted = y.holesCompleted := by
  induction l generalizing k with
  | nil => cases hx
  | cons e rest ih =>
    rcases List.mem_cons.mp hx with h | h
    · exact ⟨e, List.mem_cons_self e rest, by rw [h], by rw [h]⟩
    · obtain ⟨y, hy, h1, h2⟩ := ih (k + 1) h
      exact ⟨y, List.mem_cons_of_mem e hy, h1, h2⟩

theorem assignPositions_pairwise : ∀ (k : Int) (l : List LeaderboardEntry),
    List.Pairwise lbOrder l → List.Pairwise lbOrder (assignPositions k l)
  | _, [], _ => List.Pairwise.nil
  | k, e :: rest, h => by
    rw [List.pairwise_cons] at h
    obtain ⟨he, hrest⟩ := h
    simp only [assignPositions]
    refine List.Pairwise.cons ?_ (assignPositions_pairwise (k + 1) rest hrest)
    intro x hx
    obtain ⟨y, hy, h1, h2⟩ := mem_assignPositions (k + 1) rest hx
    have hey := he y hy
    have : lbOrder e x := by
      unfold lbOrder at hey ⊢
      omega
    exact this

/-- Claim C8: the overall leaderboard is ordered ascending by each player's
sum of recorded score-to-par values with ties broken by holes completed
descending, each entry's position is its 1-based index in that order, and
the entries are exactly the per-player aggregates of the game's players. -/
theorem leaderboard_spec (db : DB) (gameID : GoStr) :
    List.Pairwise lbOrder (getOverallLeaderboard db gameID) ∧
    (getOverallLeaderboard db gameID).map (fun e => e.position) =
      intRange 1 (getOverallLeaderboard db gameID).length ∧
    ((getOverallLeaderboard db gameID).map clearPosition).Perm
      (((db.players.filter (fun p => decide (p.gameID = gameID))).map (playerAgg db)).map
        clearPosition) := by
  refine ⟨?_, ?_, ?_⟩
  · exact assignPositions_pairwise 1 _ (List.sorted_insertionSort lbOrder _)
  · unfold getOverallLeaderboard
    rw [assignPositions_map_position, assignPositions_length,
      List.length_insertionSort]
  · unfold getOverallLeaderboard
    rw [assignPositions_map_clear]
    exact (List.perm_insertionSort lbOrder _).map clearPosition

-- Player service (internal/services/score.go, player service part).

/-- Embedding of models.CreatePlayerRequest. -/
structure CreatePlayerRequest where
  name : GoStr
  handicap : Rat
  gender : Option String
deriving DecidableEq, Repr

/-- Embedding of PlayerService.validateCreatePlayerRequest: name must be
nonempty and at most 100 bytes, handicap within 0..54, gender one of the
three accepted values when present. -/
def validateCreatePlayerRequest (req : CreatePlayerRequest) : Option ErrorCode :=
  if req.name = [] then some errValidation
  else if req.name.length > 100 then some errValidation
  else if req.handicap < 0 ∨ req.handicap > 54 then some errValidation
  else
    match req.gender with
    | some g =>
      if g ≠ genderMale ∧ g ≠ genderFemale ∧ g ≠ genderOther then some errValidation
      else none
    | none => none

/-- Embedding of PlayerService.AddPlayer (internal/services/score.go, player
service part, lines 591-684): request validation, game lookup
(getGameForUpdate), setup-status check, 4-player cap, per-game name
uniqueness, then insert with position = current count + 1.  The generated
player id and the clock are passed in explicitly. -/
def AddPlayer (db : DB) (gameID : GoStr) (req : CreatePlayerRequest)
    (playerID : GoStr) (now : Nat) : Except ErrorCode (DB × PlayerRow) :=
  match validateCreatePlayerRequest req with
  | some e => .error e
  | none =>
    match findGame db gameID with
    | none => .error errResourceNotFound
    | some g =>
      if g.status ≠ statusSetup then .error errInvalidGameState
      else
        let playerCount := (db.players.filter (fun p => decide (p.gameID = gameID))).length
        if 4 ≤ playerCount then .error errPlayerLimitExceeded
        else if 0 < (db.players.filter
            (fun p => decide (p.gameID = gameID ∧ p.name = req.name))).length then
          .error errDuplicatePlayerName
        else
          let player : PlayerRow :=
            { id := playerID, gameID := gameID, name := req.name,
              handicap := req.handicap, gender := req.gender,
              position := (playerCount : Int) + 1, createdAt := now }
          .ok ({ db with players := db.players ++ [player] }, player)

/-- Claim C3: AddPlayer fails with invalid_game_state when the game's status
is not setup; fails with player_limit_exceeded when the game already has 4
players; fails with duplicate_player_name when the name exactly matches an
existing player's name in the same game; and on success assigns the new
player position = current player count + 1. -/
theorem addPlayer_spec (db : DB) (gameID : GoStr) (req : CreatePlayerRequest)
    (playerID : GoStr) (now : Nat)
    (hval : validateCreatePlayerRequest req = none) :
    (∀ g, findGame db gameID = some g → g.status ≠ statusSetup →
      AddPlayer db gameID req playerID now = .error errInvalidGameState) ∧
    (∀ g, findGame db gameID = some g → g.status = statusSetup →
      4 ≤ (db.players.filter (fun p => decide (p.gameID = gameID))).length →
      AddPlayer db gameID req playerID now = .error errPlayerLimitExceeded) ∧
    (∀ g, findGame db gameID = some g → g.status = statusSetup →
      (db.players.filter (fun p => decide (p.gameID = gameID))).length < 4 →
      (∃ p ∈ db.players, p.gameID = gameID ∧ p.name = req.name) →
      AddPlayer db gameID req playerID now = .error errDuplicatePlayerName) ∧
    (∀ db2 p, AddPlayer db gameID req playerID now = .ok (db2, p) →
      p.position = ((db.players.filter (fun p0 => decide (p0.gameID = gameID))).length : Int) + 1 ∧
      p.name = req.name ∧ p.gameID = gameID ∧
      db2.players = db.players ++ [p]) := by
  refine ⟨?_, ?_, ?_, ?_⟩
  · intro g hfind hst
    simp only [AddPlayer, hval, hfind]
    rw [if_pos hst]
  · intro g hfind hst hcnt
    simp only [AddPlayer, hval, hfind]
    rw [if_neg (fun hcon => hcon hst), if_pos hcnt]
  · intro g hfind hst hcnt hdupEx
    have h4 : ¬ 4 ≤ (db.players.filter (fun p => decide (p.gameID = gameID))).length := by
      omega
    have hdup : 0 < (db.players.filter
        (fun p => decide (p.gameID = gameID ∧ p.name = req.name))).length := by
      obtain ⟨p, hp, h1, h2⟩ := hdupEx
      exact List.length_pos_of_mem (List.mem_filter.mpr ⟨hp, by simp [h1, h2]⟩)
    simp only [AddPlayer, hval, hfind]
    rw [if_neg (fun hcon => hcon hst), if_neg h4, if_pos hdup]
  · intro db2 p hok
    simp only [AddPlayer, hval] at hok
    split at hok
    next heq => simp at hok
    next g heq =>
      split_ifs at hok with h1 h2 h3
      simp only [Except.ok.injEq, Prod.mk.injEq] at hok
      obtain ⟨hdb2, hp⟩ := hok
      subst hp
      exact ⟨rfl, rfl, rfl, by rw [← hdb2]⟩

/-- A game row in setup used by the AddPlayer examples. -/
def gameC3 : GameRow :=
  { id := "game_33333333333333333333".data, course := "diamond-run", status := "setup",
    handicapEnabled := false, sideBets := [],
    shareToken := "gt_33333333333333333333".data,
    spectatorToken := "st_33333333333333333333".data,
    currentHole := none, createdAt := 0, startedAt := none, completedAt := none }

/-- Four players filling gameC3. -/
def playersC3Full : List PlayerRow :=
  [{ id := "player_00000000000000000001".data, gameID := gameC3.id, name := "P1".data,
     handicap := 1, gender := none, position := 1, createdAt := 0 },
   { id := "player_00000000000000000002".data, gameID := gameC3.id, name := "P2".data,
     handicap := 2, gender := none, position := 2, createdAt := 0 },
   { id := "player_00000000000000000003".data, gameID := gameC3.id, name := "P3".data,
     handicap := 3, gender := none, position := 3, createdAt := 0 },
   { id := "player_00000000000000000004".data, gameID := gameC3.id, name := "P4".data,
     handicap := 4, gender := none, position := 4, createdAt := 0 }]

/-- The existing player named Alice in dbC3Dup. -/
def playerC3Alice : PlayerRow :=
  { id := "player_00000000000000000005".data, gameID := gameC3.id, name := "Alice".data,
    handicap := 18, gender := none, position := 1, createdAt := 0 }

/-- Database whose game has already started. -/
def dbC3Started : DB :=
  { games := [{ gameC3 with status := "in_progress" }], players := [], scores := [],
    courseData := diamondRunCourse, sideBetCalcs := [], pokerCards := [], pokerHands := [] }

/-- Database whose game already has 4 players. -/
def dbC3Full : DB :=
  { games := [gameC3], players := playersC3Full, scores := [],
    courseData := diamondRunCourse, sideBetCalcs := [], pokerCards := [], pokerHands := [] }

/-- Database whose game has one player named Alice. -/
def dbC3Dup : DB :=
  { games := [gameC3], players := [playerC3Alice], scores := [],
    courseData := diamondRunCourse, sideBetCalcs := [], pokerCards := [], pokerHands := [] }

/-- Witness for addPlayer_spec: all four branches at concrete databases. -/
theorem addPlayer_spec_witness :
    AddPlayer dbC3Started "game_33333333333333333333".data ⟨"Bob".data, 10, none⟩
      "player_bbbbbbbbbbbbbbbbbbbb".data 3 = .error errInvalidGameState ∧
    AddPlayer dbC3Full "game_33333333333333333333".data ⟨"Eve".data, 10, none⟩
      "player_bbbbbbbbbbbbbbbbbbbb".data 3 = .error errPlayerLimitExceeded ∧
    AddPlayer dbC3Dup "game_33333333333333333333".data ⟨"Alice".data, 10, none⟩
      "player_bbbbbbbbbbbbbbbbbbbb".data 3 = .error errDuplicatePlayerName ∧
    (∃ db2 p, AddPlayer dbC3Dup "game_33333333333333333333".data ⟨"Bob".data, 10, none⟩
      "player_bbbbbbbbbbbbbbbbbbbb".data 3 = .ok (db2, p) ∧ p.position = 2) := by
  refine ⟨?_, ?_, ?_, ?_⟩
  · exact (addPlayer_spec dbC3Started "game_33333333333333333333".data
      ⟨"Bob".data, 10, none⟩ "player_bbbbbbbbbbbbbbbbbbbb".data 3 (by decide)).1
      { gameC3 with status := "in_progress" } rfl (by decide)
  · exact (addPlayer_spec dbC3Full "game_33333333333333333333".data
      ⟨"Eve".data, 10, none⟩ "player_bbbbbbbbbbbbbbbbbbbb".data 3 (by decide)).2.1
      gameC3 rfl rfl (by decide)
  · exact (addPlayer_spec dbC3Dup "game_33333333333333333333".data
      ⟨"Alice".data, 10, none⟩ "player_bbbbbbbbbbbbbbbbbbbb".data 3 (by decide)).2.2.1
      gameC3 rfl rfl (by decide) ⟨playerC3Alice, by decide, by decide, by decide⟩
  · have h := (addPlayer_spec dbC3Dup "game_33333333333333333333".data
      ⟨"Bob".data, 10, none⟩ "player_bbbbbbbbbbbbbbbbbbbb".data 3 (by decide)).2.2.2
    refine ⟨_, _, rfl, ?_⟩
    exact (h _ _ rfl).1.trans (by decide)

-- Game service (src/unnamed/part_014, GameService).

/-- Result of a Go service call that can also panic at run time: panics
models a Go run-time panic (here, a string-slice bound violation). -/
inductive GoRes (α : Type) where
  | panics
  | err (code : ErrorCode)
  | ok (val : α)
deriving DecidableEq, Repr

/-- The game plus its hydrated player roster returned by GetGame (side bets
and final results are stored structurally on the game row already). -/
structure GameView where
  game : GameRow
  players : List PlayerRow
deriving DecidableEq, Repr

/-- ORDER BY position of getGamePlayers. -/
def posOrder (a b : PlayerRow) : Prop := a.position ≤ b.position

instance : DecidableRel posOrder := fun a b => by
  unfold posOrder
  infer_instance

/-- Embedding of GameService.getGamePlayers: the game's players ordered by
position. -/
def gamePlayers (db : DB) (gameID : GoStr) : List PlayerRow :=
  List.insertionSort posOrder (db.players.filter (fun p => decide (p.gameID = gameID)))

/-- Embedding of GameService.GetGame (src/unnamed/part_014, lines 474-562).
The Go code slices gameIDOrToken with gameIDOrToken up to index 3
unconditionally; for an input shorter than 3 bytes that slice panics, which
is modelled by the panics result.  Otherwise the lookup is dispatched on the
three-character leading slice to the share-token, spectator-token or id
column. -/
def GetGame (db : DB) (gameIDOrToken : GoStr) : GoRes GameView :=
  if gameIDOrToken.length < 3 then .panics
  else
    let found :=
      if gameIDOrToken.take 3 = "gt_".data then
        db.games.find? (fun g => decide (g.shareToken = gameIDOrToken))
      else if gameIDOrToken.take 3 = "st_".data then
        db.games.find? (fun g => decide (g.spectatorToken = gameIDOrToken))
      else
        db.games.find? (fun g => decide (g.id = gameIDOrToken))
    match found with
    | none => .err errResourceNotFound
    | some g => .ok { game := g, players := gamePlayers db g.id }

/-- Claim C10: GetGame is not total over its string input: its prefix
dispatch slices the first 3 bytes unconditionally, so every input shorter
than 3 characters panics with an out-of-range index instead of returning a
not-found error. -/
theorem getGame_short_input_panics (db : DB) (s : GoStr) (h : s.length < 3) :
    GetGame db s = .panics ∧ ∀ e, GetGame db s ≠ .err e := by
  constructor
  · simp [GetGame, h]
  · intro e
    simp [GetGame, h]

/-- Witness for getGame_short_input_panics at the two-character input ab. -/
theorem getGame_short_input_panics_witness :
    GetGame dbC2NoPlayer "ab".data = .panics ∧
      ∀ e, GetGame dbC2NoPlayer "ab".data ≠ .err e :=
  getGame_short_input_panics dbC2NoPlayer "ab".data (by decide)

/-- The zeroed Best Nine payload seeded by initializeSideBets. -/
def emptyBestNineData : CalcData :=
  .bestNine { bestHoles := [], worstHoles := [], rawScore := 0, handicapAdjustment := 0,
              finalScore := 0, usedScores := [] }

/-- The starting Putt Putt Poker payload seeded by initializeSideBets:
3 starting cards, nothing earned, no penalties. -/
def startingPokerData : CalcData :=
  .puttPuttPoker { totalCards := 3, cardsEarned := 0, penalties := 0, puttingStats := { onePutts := 0, holeInOnes := 0, threePutts := 0, averagePutts := 0 }, cardHistory := [] }

/-- The calculation_data payload the Go switch builds per bet type; none is
the nil payload left for an unknown type. -/
def calcDataFor (sb : SideBetType) : Option CalcData :=
  if sb = sideBetBestNine then some emptyBestNineData
  else if sb = sideBetPuttPuttPoker then some startingPokerData
  else none

/-- One iteration of the inner loop of GameService.initializeSideBets
(src/unnamed/part_014, lines 780-838): for Putt Putt Poker it first inserts
the starting card event (cards_change 3, total_cards 3, hole NULL), then in
all cases inserts the side_bet_calculations row; the generated row ids are
supplied by the sbId and cardId arguments. -/
def initFor (db : DB) (gameID pid : GoStr) (sb : SideBetType) (sbIdv cardIdv : GoStr) : DB :=
  let db1 :=
    if sb = sideBetPuttPuttPoker then
      { db with pokerCards := db.pokerCards ++
          [{ id := cardIdv, playerID := pid, gameID := gameID, hole := none,
             action := "starting", cardsChange := 3, penaltyAmount := none,
             totalCards := 3 }] }
    else db
  { db1 with sideBetCalcs := db1.sideBetCalcs ++
      [{ id := sbIdv, gameID := gameID, playerID := pid, betType := sb,
         calculationData := calcDataFor sb }] }

/-- The inner loop of initializeSideBets over the enabled side bets of one
player. -/
def initPlayerBets (gameID pid : GoStr) (sbId : GoStr → SideBetType → GoStr)
    (cardId : GoStr → GoStr) : List SideBetType → DB → DB
  | [], db => db
  | sb :: rest, db =>
    initPlayerBets gameID pid sbId cardId rest
      (initFor db gameID pid sb (sbId pid sb) (cardId pid))

/-- Embedding of GameService.initializeSideBets: the outer loop over the
players. -/
def initializeSideBets (gameID : GoStr) (sbId : GoStr → SideBetType → GoStr)
    (cardId : GoStr → GoStr) : List PlayerRow → List SideBetType → DB → DB
  | [], _, db => db
  | p :: rest, sideBets, db =>
    initializeSideBets gameID sbId cardId rest sideBets
      (initPlayerBets gameID p.id sbId cardId sideBets db)

/-- The UPDATE games SET status, started_at, current_hole WHERE id statement
of StartGame, as a per-row function. -/
def startUpdate (gameID : GoStr) (now : Nat) (g : GameRow) : GameRow :=
  if g.id = gameID then
    { g with status := statusInProgress, startedAt := some now, currentHole := some 1 }
  else g

/-- Embedding of GameService.StartGame (src/unnamed/part_014, lines 565-605):
fetch the game, require setup status and a nonempty roster, update the game
row (status in_progress, started_at, current_hole 1), seed the side-bet
rows, and return the re-read game.  The state is returned alongside the
result since the row update persists regardless of the trailing re-read. -/
def StartGame (db : DB) (gameID : GoStr) (now : Nat)
    (sbId : GoStr → SideBetType → GoStr) (cardId : GoStr → GoStr) :
    DB × GoRes GameView :=
  match GetGame db gameID with
  | .panics => (db, .panics)
  | .err e => (db, .err e)
  | .ok gv =>
    if gv.game.status ≠ statusSetup then (db, .err errInvalidGameState)
    else if gv.players.length = 0 then (db, .err errInvalidGameState)
    else
      let db1 := { db with games := db.games.map (startUpdate gameID now) }
      let db2 := initializeSideBets gameID sbId cardId gv.players gv.game.sideBets db1
      (db2, GetGame db2 gameID)

theorem initFor_games (db : DB) (gameID pid : GoStr) (sb : SideBetType)
    (sbIdv cardIdv : GoStr) : (initFor db gameID pid sb sbIdv cardIdv).games = db.games := by
  unfold initFor
  split_ifs <;> rfl

theorem initFor_calcs_mono (db : DB) (gameID pid : GoStr) (sb : SideBetType)
    (sbIdv cardIdv : GoStr) (r : SideBetCalcRow) (h : r ∈ db.sideBetCalcs) :
    r ∈ (initFor db gameID pid sb sbIdv cardIdv).sideBetCalcs := by
  unfold initFor
  split_ifs <;> exact List.mem_append_left _ h

theorem initFor_cards_mono (db : DB) (gameID pid : GoStr) (sb : SideBetType)
    (sbIdv cardIdv : GoStr) (r : PokerCardRow) (h : r ∈ db.pokerCards) :
    r ∈ (initFor db gameID pid sb sbIdv cardIdv).pokerCards := by
  unfold initFor
  split_ifs
  · exact List.mem_append_left _ h
  · exact h

theorem initFor_adds_calc (db : DB) (gameID pid : GoStr) (sb : SideBetType)
    (sbIdv cardIdv : GoStr) :
    ({ id := sbIdv, gameID := gameID, playerID := pid, betType := sb,
       calculationData := calcDataFor sb } : SideBetCalcRow) ∈
      (initFor db gameID pid sb sbIdv cardIdv).sideBetCalcs := by
  unfold initFor
  split_ifs <;> exact List.mem_append_right _ (by simp)

theorem initFor_adds_card (db : DB) (gameID pid : GoStr) (sb : SideBetType)
    (sbIdv cardIdv : GoStr) (h : sb = sideBetPuttPuttPoker) :
    ({ id := cardIdv, playerID := pid, gameID := gameID, hole := none,
       action := "starting", cardsChange := 3, penaltyAmount := none,
       totalCards := 3 } : PokerCardRow) ∈
      (initFor db gameID pid sb sbIdv cardIdv).pokerCards := by
  unfold initFor
  rw [if_pos h]
  exact List.mem_append_right _ (by simp)

theorem initPlayerBets_games (gameID pid : GoStr) (sbId : GoStr → SideBetType → GoStr)
    (cardId : GoStr → GoStr) : ∀ (sbs : List SideBetType) (db : DB),
    (initPlayerBets gameID pid sbId cardId sbs db).games = db.games
  | [], _ => rfl
  | sb :: rest, db => by
    simp only [initPlayerBets]
    rw [initPlayerBets_games gameID pid sbId cardId rest, initFor_games]

theorem initPlayerBets_calcs_mono (gameID pid : GoStr)
    (sbId : GoStr → SideBetType → GoStr) (cardId : GoStr → GoStr) :
    ∀ (sbs : List SideBetType) (db : DB) (r : SideBetCalcRow),
    r ∈ db.sideBetCalcs → r ∈ (initPlayerBets gameID pid sbId cardId sbs db).sideBetCalcs
  | [], _, _, h => h
  | sb :: rest, db, r, h => by
    simp only [initPlayerBets]
    exact initPlayerBets_calcs_mono gameID pid sbId cardId rest _ r
      (initFor_calcs_mono db gameID pid sb (sbId pid sb) (cardId pid) r h)

theorem initPlayerBets_cards_mono (gameID pid : GoStr)
    (sbId : GoStr → SideBetType → GoStr) (cardId : GoStr → GoStr) :
    ∀ (sbs : List SideBetType) (db : DB) (r : PokerCardRow),
    r ∈ db.pokerCards → r ∈ (initPlayerBets gameID pid sbId cardId sbs db).pokerCards
  | [], _, _, h => h
  | sb :: rest, db, r, h => by
    simp only [initPlayerBets]
    exact initPlayerBets_cards_mono gameID pid sbId cardId rest _ r
      (initFor_cards_mono db gameID pid sb (sbId pid sb) (cardId pid) r h)

theorem initPlayerBets_adds_calc (gameID pid : GoStr)
    (sbId : GoStr → SideBetType → GoStr) (cardId : GoStr → GoStr) :
    ∀ (sbs : List SideBetType) (db : DB) (sb : SideBetType), sb ∈ sbs →
    ({ id := sbId pid sb, gameID := gameID, playerID := pid, betType := sb,
       calculationData := calcDataFor sb } : SideBetCalcRow) ∈
      (initPlayerBets gameID pid sbId cardId sbs db).sideBetCalcs
  | [], _, sb, h => absurd h (List.not_mem_nil sb)
  | sb2 :: rest, db, sb, h => by
    simp only [initPlayerBets]
    rcases List.mem_cons.mp h with he | hrest
    · subst he
      exact initPlayerBets_calcs_mono gameID pid sbId cardId rest _ _
        (initFor_adds_calc db gameID pid sb (sbId pid sb) (cardId pid))
    · exact initPlayerBets_adds_calc gameID pid sbId cardId rest _ sb hrest

theorem initPlayerBets_adds_card (gameID pid : GoStr)
    (sbId : GoStr → SideBetType → GoStr) (cardId : GoStr → GoStr) :
    ∀ (sbs : List SideBetType) (db : DB), sideBetPuttPuttPoker ∈ sbs →
    ({ id := cardId pid, playerID := pid, gameID := gameID, hole := none,
       action := "starting", cardsChange := 3, penaltyAmount := none,
       totalCards := 3 } : PokerCardRow) ∈
      (initPlayerBets gameID pid sbId cardId sbs db).pokerCards
  | [], _, h => absurd h (List.not_mem_nil _)
  | sb2 :: rest, db, h => by
    simp only [initPlayerBets]
    rcases List.mem_cons.mp h with he | hrest
    · exact initPlayerBets_cards_mono gameID pid sbId cardId rest _ _
        (initFor_adds_card db gameID pid sb2 (sbId pid sb2) (cardId pid) he.symm)
    · exact initPlayerBets_adds_card gameID pid sbId cardId rest _ hrest

theorem initializeSideBets_games (gameID : GoStr) (sbId : GoStr → SideBetType → GoStr)
    (cardId : GoStr → GoStr) : ∀ (players : List PlayerRow) (sbs : List SideBetType)
    (db : DB), (initializeSideBets gameID sbId cardId players sbs db).games = db.games
  | [], _, _ => rfl
  | p :: rest, sbs, db => by
    simp only [initializeSideBets]
    rw [initializeSideBets_games gameID sbId cardId rest, initPlayerBets_games]

theorem initializeSideBets_calcs_mono (gameID : GoStr)
    (sbId : GoStr → SideBetType → GoStr) (cardId : GoStr → GoStr) :
    ∀ (players : List PlayerRow) (sbs : List SideBetType) (db : DB) (r : SideBetCalcRow),
    r ∈ db.sideBetCalcs →
      r ∈ (initializeSideBets gameID sbId cardId players sbs db).sideBetCalcs
  | [], _, _, _, h => h
  | p :: rest, sbs, db, r, h => by
    simp only [initializeSideBets]
    exact initializeSideBets_calcs_mono gameID sbId cardId rest sbs _ r
      (initPlayerBets_calcs_mono gameID p.id sbId cardId sbs db r h)

theorem initializeSideBets_cards_mono (gameID : GoStr)
    (sbId : GoStr → SideBetType → GoStr) (cardId : GoStr → GoStr) :
    ∀ (players : List PlayerRow) (sbs : List SideBetType) (db : DB) (r : PokerCardRow),
    r ∈ db.pokerCards →
      r ∈ (initializeSideBets gameID sbId cardId players sbs db).pokerCards
  | [], _, _, _, h => h
  | p :: rest, sbs, db, r, h => by
    simp only [initializeSideBets]
    exact initializeSideBets_cards_mono gameID sbId cardId rest sbs _ r
      (initPlayerBets_cards_mono gameID p.id sbId cardId sbs db r h)

theorem initializeSideBets_adds_calc (gameID : GoStr)
    (sbId : GoStr → SideBetType → GoStr) (cardId : GoStr → GoStr) :
    ∀ (players : List PlayerRow) (sbs : List SideBetType) (db : DB) (p : PlayerRow)
    (sb : SideBetType), p ∈ players → sb ∈ sbs →
    ({ id := sbId p.id sb, gameID := gameID, playerID := p.id, betType := sb,
       calculationData := calcDataFor sb } : SideBetCalcRow) ∈
      (initializeSideBets gameID sbId cardId players sbs db).sideBetCalcs
  | [], _, _, p, _, hp, _ => absurd hp (List.not_mem_nil p)
  | p2 :: rest, sbs, db, p, sb, hp, hsb => by
    simp only [initializeSideBets]
    rcases List.mem_cons.mp hp with he | hrest
    · subst he
      exact initializeSideBets_calcs_mono gameID sbId cardId rest sbs _ _
        (initPlayerBets_adds_calc gameID p.id sbId cardId sbs db sb hsb)
    · exact initializeSideBets_adds_calc gameID sbId cardId rest sbs _ p sb hrest hsb

theorem initializeSideBets_adds_card (gameID : GoStr)
    (sbId : GoStr → SideBetType → GoStr) (cardId : GoStr → GoStr) :
    ∀ (players : List PlayerRow) (sbs : List SideBetType) (db : DB) (p : PlayerRow),
    p ∈ players → sideBetPuttPuttPoker ∈ sbs →
    ({ id := cardId p.id, playerID := p.id, gameID := gameID, hole := none,
       action := "starting", cardsChange := 3, penaltyAmount := none,
       totalCards := 3 } : PokerCardRow) ∈
      (initializeSideBets gameID sbId cardId players sbs db).pokerCards
  | [], _, _, p, hp, _ => absurd hp (List.not_mem_nil p)
  | p2 :: rest, sbs, db, p, hp, hsb => by
    simp only [initializeSideBets]
    rcases List.mem_cons.mp hp with he | hrest
    · subst he
      exact initializeSideBets_cards_mono gameID sbId cardId rest sbs _ _
        (initPlayerBets_adds_card gameID p.id sbId cardId sbs db hsb)
    · exact initializeSideBets_adds_card gameID sbId cardId rest sbs _ p hrest hsb

theorem find?_map_id_pres (l : List GameRow) (gameID : GoStr) (f : GameRow → GameRow)
    (hf : ∀ g, (f g).id = g.id) :
    (l.map f).find? (fun g => decide (g.id = gameID)) =
      (l.find? (fun g => decide (g.id = gameID))).map f := by
  induction l with
  | nil => rfl
  | cons g rest ih =>
    by_cases hp : g.id = gameID
    · rw [List.map_cons, List.find?_cons_of_pos _ (by simp [hf, hp]),
        List.find?_cons_of_pos _ (by simp [hp])]
      rfl
    · rw [List.map_cons, List.find?_cons_of_neg _ (by simp [hf, hp]),
        List.find?_cons_of_neg _ (by simp [hp]), ih]

/-- Claim C4: StartGame fails with invalid_game_state unless the game's
status is setup and the game has at least one player; on success it sets
status to in_progress and current_hole to 1 (and started_at), and for every
pair of a player and an enabled side bet it seeds a SideBetCalculation row
with the empty/zeroed payload for that bet type, additionally recording for
Putt-Putt-Poker a starting card event with cards_change = 3 and
total_cards = 3 for each player. -/
theorem startGame_spec (db : DB) (gameID : GoStr) (now : Nat)
    (sbId : GoStr → SideBetType → GoStr) (cardId : GoStr → GoStr) (g : GameRow)
    (hlen : ¬ gameID.length < 3)
    (hg1 : gameID.take 3 ≠ "gt_".data) (hg2 : gameID.take 3 ≠ "st_".data)
    (hfind : db.games.find? (fun g0 => decide (g0.id = gameID)) = some g) :
    ((g.status ≠ statusSetup ∨ gamePlayers db g.id = []) →
      StartGame db gameID now sbId cardId = (db, .err errInvalidGameState)) ∧
    (g.status = statusSetup → gamePlayers db g.id ≠ [] →
      (∃ g2, findGame (StartGame db gameID now sbId cardId).1 gameID = some g2 ∧
        g2.status = statusInProgress ∧ g2.currentHole = some 1 ∧
        g2.startedAt = some now) ∧
      (∀ p ∈ gamePlayers db g.id, ∀ sb ∈ g.sideBets,
        ({ id := sbId p.id sb, gameID := gameID, playerID := p.id, betType := sb,
           calculationData := calcDataFor sb } : SideBetCalcRow) ∈
          (StartGame db gameID now sbId cardId).1.sideBetCalcs) ∧
      (∀ p ∈ gamePlayers db g.id, sideBetPuttPuttPoker ∈ g.sideBets →
        ({ id := cardId p.id, playerID := p.id, gameID := gameID, hole := none,
           action := "starting", cardsChange := 3, penaltyAmount := none,
           totalCards := 3 } : PokerCardRow) ∈
          (StartGame db gameID now sbId cardId).1.pokerCards)) := by
  have hid : g.id = gameID := by
    have h := List.find?_some hfind
    simpa using h
  have hget : GetGame db gameID = .ok ⟨g, gamePlayers db g.id⟩ := by
    simp only [GetGame, if_neg hlen, if_neg hg1, if_neg hg2, hfind]
  constructor
  · intro hbad
    rcases hbad with hst | hpl
    · simp only [StartGame, hget]
      rw [if_pos hst]
    · by_cases hst : g.status ≠ statusSetup
      · simp only [StartGame, hget]
        rw [if_pos hst]
      · simp only [StartGame, hget]
        rw [if_neg hst, if_pos (show (gamePlayers db g.id).length = 0 by rw [hpl]; rfl)]
  · intro hst hpl
    have h1 : ¬ (g.status ≠ statusSetup) := fun hcon => hcon hst
    have h2 : ¬ ((gamePlayers db g.id).length = 0) := fun h0 =>
      hpl (List.length_eq_zero.mp h0)
    have hrun1 : (StartGame db gameID now sbId cardId).1 =
        initializeSideBets gameID sbId cardId (gamePlayers db g.id) g.sideBets
          { db with games := db.games.map (startUpdate gameID now) } := by
      simp only [StartGame, hget]
      rw [if_neg h1, if_neg h2]
    refine ⟨⟨startUpdate gameID now g, ?_, ?_, ?_, ?_⟩, ?_, ?_⟩
    · rw [hrun1]
      unfold findGame
      rw [initializeSideBets_games]
      show (db.games.map (startUpdate gameID now)).find?
        (fun g0 => decide (g0.id = gameID)) = some (startUpdate gameID now g)
      rw [find?_map_id_pres db.games gameID (startUpdate gameID now)
        (fun g0 => by unfold startUpdate; split_ifs <;> rfl), hfind]
      rfl
    · unfold startUpdate
      rw [if_pos hid]
    · unfold startUpdate
      rw [if_pos hid]
    · unfold startUpdate
      rw [if_pos hid]
    · intro p hp sb hsb
      rw [hrun1]
      exact initializeSideBets_adds_calc gameID sbId cardId (gamePlayers db g.id)
        g.sideBets _ p sb hp hsb
    · intro p hp hsb
      rw [hrun1]
      exact initializeSideBets_adds_card gameID sbId cardId (gamePlayers db g.id)
        g.sideBets _ p hp hsb

/-- A setup game with both side bets enabled, used by the StartGame witness. -/
def gameC4 : GameRow :=
  { id := "game_44444444444444444444".data, course := "diamond-run", status := "setup",
    handicapEnabled := true, sideBets := [sideBetBestNine, sideBetPuttPuttPoker],
    shareToken := "gt_44444444444444444444".data,
    spectatorToken := "st_44444444444444444444".data,
    currentHole := none, createdAt := 0, startedAt := none, completedAt := none }

/-- The single player of gameC4. -/
def playerC4 : PlayerRow :=
  { id := "player_00000000000000000044".data, gameID := gameC4.id, name := "Ann".data,
    handicap := 12, gender := none, position := 1, createdAt := 0 }

/-- Database for the StartGame witness. -/
def dbC4 : DB :=
  { games := [gameC4], players := [playerC4], scores := [],
    courseData := diamondRunCourse, sideBetCalcs := [], pokerCards := [], pokerHands := [] }

/-- The id supplies for the StartGame witness, standing in for the random
generators. -/
def sbIdW : GoStr → SideBetType → GoStr := fun _ _ => "sidebet_00000000000000000001".data

/-- The card id supply for the StartGame witness. -/
def cardIdW : GoStr → GoStr := fun _ => "card_0000000000000000000001".data

/-- Witness for startGame_spec: starting the concrete game dbC4 marks it in
progress on hole 1 and seeds the side-bet row and starting card event for
its player. -/
theorem startGame_spec_witness :
    (∃ g2, findGame (StartGame dbC4 "game_44444444444444444444".data 9 sbIdW cardIdW).1
        "game_44444444444444444444".data = some g2 ∧
      g2.status = statusInProgress ∧ g2.currentHole = some 1 ∧ g2.startedAt = some 9) ∧
    ({ id := sbIdW playerC4.id sideBetPuttPuttPoker,
       gameID := "game_44444444444444444444".data, playerID := playerC4.id,
       betType := sideBetPuttPuttPoker,
       calculationData := calcDataFor sideBetPuttPuttPoker } : SideBetCalcRow) ∈
      (StartGame dbC4 "game_44444444444444444444".data 9 sbIdW cardIdW).1.sideBetCalcs ∧
    ({ id := cardIdW playerC4.id, playerID := playerC4.id,
       gameID := "game_44444444444444444444".data, hole := none, action := "starting",
       cardsChange := 3, penaltyAmount := none, totalCards := 3 } : PokerCardRow) ∈
      (StartGame dbC4 "game_44444444444444444444".data 9 sbIdW cardIdW).1.pokerCards := by
  have h := (startGame_spec dbC4 "game_44444444444444444444".data 9 sbIdW cardIdW gameC4
    (by decide) (by decide) (by decide) rfl).2 rfl (by decide)
  exact ⟨h.1, h.2.1 playerC4 (by decide) sideBetPuttPuttPoker (by decide),
    h.2.2 playerC4 (by decide) (by decide)⟩

-- Side-bet service (src/unnamed/part_014, SideBetService).

/-- Embedding of the gameInfo struct of the side-bet service. -/
structure SideBetGameInfo where
  status : String
  handicapEnabled : Bool
  sideBets : List SideBetType
  currentHole : Option Int
deriving DecidableEq, Repr

/-- Embedding of SideBetService.getGameForSideBet (src/unnamed/part_014,
lines 288-337): single-row SELECT on games by id, decode of the stored
side-bets form, and the enabled-bet membership check. -/
def getGameForSideBet (db : DB) (gameID : GoStr) (sideBetType : SideBetType) :
    Except ErrorCode SideBetGameInfo :=
  match findGame db gameID with
  | none => .error errResourceNotFound
  | some g =>
    if sideBetType ∈ g.sideBets then
      .ok { status := g.status, handicapEnabled := g.handicapEnabled,
            sideBets := g.sideBets, currentHole := g.currentHole }
    else .error errSideBetNotEnabled

/-- Embedding of models.PokerDealResult. -/
structure PokerDealResult where
  players : List PokerHandRow
deriving DecidableEq, Repr

/-- Embedding of SideBetService.DealPokerCards (src/unnamed/part_014, lines
231-265): requires Putt Putt Poker enabled, game completed, and no existing
poker_hands row for the game; the Go body then returns the (stubbed) empty
deal result. -/
def DealPokerCards (db : DB) (gameID : GoStr) : Except ErrorCode PokerDealResult :=
  match getGameForSideBet db gameID sideBetPuttPuttPoker with
  | .error e => .error e
  | .ok game =>
    if game.status ≠ statusCompleted then .error errGameNotCompleted
    else if 0 < (db.pokerHands.filter (fun h => decide (h.gameID = gameID))).length then
      .error errCardsAlreadyDealt
    else .ok { players := [] }

/-- Claim C7: DealPokerCards fails with side_bet_not_enabled when the game's
enabled side-bets set does not contain putt-putt-poker, fails with
game_not_completed when the game's status is not completed, fails with
cards_already_dealt when at least one poker hand already exists for the
game, and only when all three preconditions hold returns a deal result. -/
theorem dealPokerCards_spec (db : DB) (gameID : GoStr) (g : GameRow)
    (hfind : findGame db gameID = some g) :
    (sideBetPuttPuttPoker ∉ g.sideBets →
      DealPokerCards db gameID = .error errSideBetNotEnabled) ∧
    (sideBetPuttPuttPoker ∈ g.sideBets → g.status ≠ statusCompleted →
      DealPokerCards db gameID = .error errGameNotCompleted) ∧
    (sideBetPuttPuttPoker ∈ g.sideBets → g.status = statusCompleted →
      0 < (db.pokerHands.filter (fun h => decide (h.gameID = gameID))).length →
      DealPokerCards db gameID = .error errCardsAlreadyDealt) ∧
    (sideBetPuttPuttPoker ∈ g.sideBets → g.status = statusCompleted →
      (db.pokerHands.filter (fun h => decide (h.gameID = gameID))).length = 0 →
      DealPokerCards db gameID = .ok { players := [] }) := by
  refine ⟨?_, ?_, ?_, ?_⟩
  · intro hnot
    have hsb : getGameForSideBet db gameID sideBetPuttPuttPoker =
        .error errSideBetNotEnabled := by
      simp only [getGameForSideBet, hfind]
      rw [if_neg hnot]
    simp only [DealPokerCards, hsb]
  · intro hin hst
    have hsb : getGameForSideBet db gameID sideBetPuttPuttPoker =
        .ok { status := g.status, handicapEnabled := g.handicapEnabled,
              sideBets := g.sideBets, currentHole := g.currentHole } := by
      simp only [getGameForSideBet, hfind]
      rw [if_pos hin]
    simp only [DealPokerCards, hsb]
    rw [if_pos hst]
  · intro hin hst hcnt
    have hsb : getGameForSideBet db gameID sideBetPuttPuttPoker =
        .ok { status := g.status, handicapEnabled := g.handicapEnabled,
              sideBets := g.sideBets, currentHole := g.currentHole } := by
      simp only [getGameForSideBet, hfind]
      rw [if_pos hin]
    simp only [DealPokerCards, hsb]
    rw [if_neg (fun hcon => hcon hst), if_pos hcnt]
  · intro hin hst hcnt
    have hsb : getGameForSideBet db gameID sideBetPuttPuttPoker =
        .ok { status := g.status, handicapEnabled := g.handicapEnabled,
              sideBets := g.sideBets, currentHole := g.currentHole } := by
      simp only [getGameForSideBet, hfind]
      rw [if_pos hin]
    simp only [DealPokerCards, hsb]
    rw [if_neg (fun hcon => hcon hst), if_neg (show ¬ 0 <
      (db.pokerHands.filter (fun h => decide (h.gameID = gameID))).length by omega)]

/-- A completed game with Putt Putt Poker enabled. -/
def gameC7 : GameRow :=
  { id := "game_77777777777777777777".data, course := "diamond-run",
    status := "completed", handicapEnabled := false,
    sideBets := [sideBetPuttPuttPoker],
    shareToken := "gt_77777777777777777777".data,
    spectatorToken := "st_77777777777777777777".data,
    currentHole := some 18, createdAt := 0, startedAt := some 1, completedAt := some 2 }

/-- Database variants for the DealPokerCards witness. -/
def dbC7Ok : DB :=
  { games := [gameC7], players := [], scores := [], courseData := diamondRunCourse,
    sideBetCalcs := [], pokerCards := [], pokerHands := [] }

/-- Same game but with only Best Nine enabled. -/
def dbC7NotEnabled : DB :=
  { games := [{ gameC7 with sideBets := [sideBetBestNine] }], players := [], scores := [],
    courseData := diamondRunCourse, sideBetCalcs := [], pokerCards := [], pokerHands := [] }

/-- Same game but still in progress. -/
def dbC7InProgress : DB :=
  { games := [{ gameC7 with status := "in_progress" }], players := [], scores := [],
    courseData := diamondRunCourse, sideBetCalcs := [], pokerCards := [], pokerHands := [] }

/-- Same game but with a poker hand already dealt. -/
def dbC7Dealt : DB :=
  { games := [gameC7], players := [], scores := [], courseData := diamondRunCourse,
    sideBetCalcs := [], pokerCards := [],
    pokerHands := [{ id := "hand_00000000000000000001".data, gameID := gameC7.id,
                     playerID := "player_00000000000000000077".data,
                     totalCardsEarned := 5, handRank := 10, position := 1 }] }

/-- Witness for dealPokerCards_spec: all four branches at concrete databases. -/
theorem dealPokerCards_spec_witness :
    DealPokerCards dbC7NotEnabled "game_77777777777777777777".data =
      .error errSideBetNotEnabled ∧
    DealPokerCards dbC7InProgress "game_77777777777777777777".data =
      .error errGameNotCompleted ∧
    DealPokerCards dbC7Dealt "game_77777777777777777777".data =
      .error errCardsAlreadyDealt ∧
    DealPokerCards dbC7Ok "game_77777777777777777777".data = .ok { players := [] } := by
  refine ⟨?_, ?_, ?_, ?_⟩
  · exact (dealPokerCards_spec dbC7NotEnabled "game_77777777777777777777".data
      { gameC7 with sideBets := [sideBetBestNine] } rfl).1 (by decide)
  · exact (dealPokerCards_spec dbC7InProgress "game_77777777777777777777".data
      { gameC7 with status := "in_progress" } rfl).2.1 (by decide) (by decide)
  · exact (dealPokerCards_spec dbC7Dealt "game_77777777777777777777".data
      gameC7 rfl).2.2.1 (by decide) rfl (by decide)
  · exact (dealPokerCards_spec dbC7Ok "game_77777777777777777777".data
      gameC7 rfl).2.2.2 (by decide) rfl rfl
